import Mathlib

/-!
Verification model of the browser page session controller implemented in
src/packages/scanner-global-library/src/page.ts.  The `Page` class fields and
observable page/driver state become `PageState`; external collaborators that
live outside this file's source (the navigation engine, the browser driver and
the two scan engines) are modelled from the specification as outcome data
threaded through the methods.  A method that can raise a JS fault returns
`Except Fault`, so raised faults are distinguishable from returned results.
-/

/-- Structured navigation failure descriptor (BrowserError). -/
structure BrowserError where
  message : String
  statusCode : Option Nat
deriving DecidableEq, Repr

/-- Navigation response metadata as read by page.ts: `status()` and
`request().redirectChain().length`. -/
structure HTTPResponse where
  status : Nat
  redirectChainLength : Nat
deriving DecidableEq, Repr

/-- Puppeteer `HTTPResponse.ok()`: status in the 200..299 range. -/
def HTTPResponse.ok (r : HTTPResponse) : Bool :=
  decide (200 ≤ r.status) && decide (r.status < 300)

/-- One emitted log record: level, message and the property bag. -/
structure LogEntry where
  level : String
  message : String
  properties : List (String × String)
deriving DecidableEq, Repr

/-- Pure external facilities the controller reads: whether the optional logger
was injected, the JS `encodeURI` function, `System.serializeError`,
`JSON.stringify` on an error array, and the page/browser metadata getters
(`page.title()`, `browser.version()`, `userAgent`, `browserResolution`). -/
structure Env where
  hasLogger : Bool
  encodeURI : String → String
  serializeError : String → String
  serializeBrowserError : BrowserError → String
  stringifyErrors : List String → String
  pageTitle : String
  browserVersion : String
  userAgent : String
  browserResolution : String

/-- The mutable fields of the `Page` class together with the observable state
of its page handle and browser driver, plus the emitted log. -/
structure PageState where
  requestUrl : Option String
  pageExists : Bool
  pageClosed : Bool
  pageUrl : String
  lastNavigationResponse : Option HTTPResponse
  lastBrowserError : Option BrowserError
  driverBrowserOpen : Bool
  log : List LogEntry
deriving DecidableEq, Repr

/-- A raised JS fault escaping a method: the not-ready `Error` thrown by
`runIfNavigationSucceeded`, or a `TypeError` from reading a property of
`undefined`. -/
inductive Fault where
  | notReady (msg : String)
  | typeError (msg : String)
deriving DecidableEq, Repr

/-- The `error` field of a scan result, which the source types as
`BrowserError | string`. -/
inductive ScanError where
  | browser (e : BrowserError)
  | msg (s : String)
deriving DecidableEq, Repr

/-- A `this.logger?.logX(...)` call: appends to the log when the logger is
present, a no-op otherwise. -/
def logOptional (env : Env) (e : LogEntry) (s : PageState) : PageState :=
  if env.hasLogger then { s with log := s.log ++ [e] } else s

/-- A `this.logger.logError(...)` call without optional chaining, as written at
the privacy error-aggregation site (page.ts line 177): reading `logError` off an
absent logger raises a `TypeError`. -/
def logRequired (env : Env) (e : LogEntry) (s : PageState) :
    Except Fault PageState :=
  if env.hasLogger then Except.ok { s with log := s.log ++ [e] }
  else Except.error (Fault.typeError "Cannot read properties of undefined (reading logError)")

/-- Modelled from the spec: the navigation collaborator `PageNavigator.navigate`
is not under src/.  Per the spec it invokes the `onError` callback with a
`BrowserError` on failure instead of faulting (returning no response metadata
then), and on success returns the response metadata with the page left at the
final URL. -/
inductive NavResult where
  | success (response : HTTPResponse) (finalUrl : String)
  | failure (error : BrowserError)
deriving DecidableEq, Repr

namespace Page

/-- `navigateToUrl(url)`: records `requestUrl`, clears `lastBrowserError`, then
delegates to the navigation collaborator; the error callback logs and records
the `BrowserError`, and the returned response (absent on failure) is stored
unconditionally as `lastNavigationResponse`. -/
def navigateToUrl (env : Env) (url : String) (nav : NavResult) (s : PageState) :
    PageState :=
  let s1 := { s with requestUrl := some url, lastBrowserError := none }
  match nav with
  | NavResult.success r finalUrl =>
      { s1 with lastNavigationResponse := some r, pageUrl := finalUrl }
  | NavResult.failure e =>
      let s2 := logOptional env
        ⟨"error", "Page navigation error", [("browserError", env.serializeBrowserError e)]⟩ s1
      { s2 with lastBrowserError := some e, lastNavigationResponse := none }

/-- `isOpen()`: the page handle exists, is not closed, no browser error is
recorded, and a navigation response exists. -/
def isOpen (s : PageState) : Bool :=
  s.pageExists && !s.pageClosed && s.lastBrowserError.isNone
    && s.lastNavigationResponse.isSome

/-- The shared scan gate `runIfNavigationSucceeded`: a recorded browser error
short-circuits into a failure result carrying that error and its status code
(built by `mkFailure` for the concrete result type); otherwise a not-open
session raises the not-ready `Error`; otherwise the scan action runs. -/
def runIfNavigationSucceeded {α : Type} (s : PageState)
    (mkFailure : ScanError → Option Nat → α)
    (action : PageState → Except Fault (α × PageState)) :
    Except Fault (α × PageState) :=
  match s.lastBrowserError with
  | some e => Except.ok (mkFailure (ScanError.browser e) e.statusCode, s)
  | none =>
      if isOpen s then action s
      else Except.error
        (Fault.notReady "Page is not ready. Call create() and navigateToUrl() before scan.")

/-- `create(options)`: launch or connect the browser via the driver, then open
one page handle; a launch/connect fault propagates and leaves the session not
created. -/
def create (launchSucceeded : Bool) (s : PageState) : Except Fault PageState :=
  if launchSucceeded then
    Except.ok { s with driverBrowserOpen := true, pageExists := true, pageClosed := false }
  else Except.error (Fault.typeError "browser launch failed")

/-- Modelled from the spec: `WebDriver.close` is not under src/.  It releases
the browser handle when one is held — closing the browser closes the pages it
owns — and is safe when none is held. -/
def webDriverClose (s : PageState) : PageState :=
  { s with driverBrowserOpen := false,
           pageClosed := s.pageClosed || s.driverBrowserOpen }

/-- `close()`: the injected `webDriver` reference is always defined, so the
guard always delegates to `WebDriver.close`. -/
def close (s : PageState) : PageState := webDriverClose s

end Page

/-- The shared redirect/URL-mismatch condition guarding the `scannedUrl`
assignment in both orchestrators: a non-empty redirect chain, or a defined
`requestUrl` whose `encodeURI` image differs from the observed URL. -/
def redirectOrMismatch (env : Env) (redirectChainLength : Nat)
    (requestUrl : Option String) (observedUrl : String) : Bool :=
  decide (0 < redirectChainLength) ||
    match requestUrl with
    | some u => decide (env.encodeURI u ≠ observedUrl)
    | none => false

/-- Axe engine output as read by page.ts: the engine-observed `url` plus the
rest of the report, kept opaque. -/
structure AxeResults where
  url : String
  payload : String
deriving DecidableEq, Repr

/-- The accessibility scan result record (axe-scan-results). -/
structure AxeScanResults where
  results : Option AxeResults := none
  error : Option ScanError := none
  pageTitle : Option String := none
  browserSpec : Option String := none
  pageResponseCode : Option Nat := none
  userAgent : Option String := none
  browserResolution : Option String := none
  scannedUrl : Option String := none
deriving DecidableEq, Repr

/-- One element of `cookieCollectionConsentResults`: an optional error plus the
rest of the sub-result, kept opaque. -/
structure ConsentResult where
  error : Option String
  payload : String
deriving DecidableEq, Repr

/-- The privacy engine output (PrivacyResults): its consent sub-results plus
the remaining fields, kept opaque. -/
structure PrivacyResults where
  cookieCollectionConsentResults : List ConsentResult
  otherData : String
deriving DecidableEq, Repr

/-- The merged `results` object of a privacy scan: the engine output spread
together with `httpStatusCode` and `seedUri`. -/
structure PrivacyReport where
  base : PrivacyResults
  httpStatusCode : Nat
  seedUri : Option String
deriving DecidableEq, Repr

/-- The privacy scan result record (privacy-scan-result). -/
structure PrivacyScanResult where
  results : Option PrivacyReport := none
  error : Option ScanError := none
  pageResponseCode : Option Nat := none
  scannedUrl : Option String := none
deriving DecidableEq, Repr

/-- Modelled from the spec: one run of the privacy engine (privacy-scan-core is
not under src/).  Per the spec it invokes the reload callback zero or more
times and then returns results or throws; `reloads` holds, in order, the
navigation outcome the navigation collaborator produces for each reload, and
`outcome` the engine's final return value or thrown error. -/
structure PrivacyEngineRun where
  reloads : List NavResult
  outcome : Except String PrivacyResults
deriving Repr

namespace Page

/-- `reloadPageFunc`: `navigateToUrl` on the page's current URL; the
`{success, error}` record handed back to the engine does not touch controller
state. -/
def reloadPage (env : Env) (nav : NavResult) (s : PageState) : PageState :=
  navigateToUrl env s.pageUrl nav s

/-- The sequence of reload-callback invocations the engine performs during one
privacy scan. -/
def runReloads (env : Env) (reloads : List NavResult) (s : PageState) : PageState :=
  match reloads with
  | [] => s
  | nav :: rest => runReloads env rest (reloadPage env nav s)

/-- `scanPageForIssues`: run the axe engine (its outcome given as data — a
report or a thrown error), converting an engine throw into a failure result; on
success assemble the metadata record and apply the redirect/mismatch check. -/
def scanPageForIssues (env : Env) (engine : Except String AxeResults)
    (s : PageState) : Except Fault (AxeScanResults × PageState) :=
  match engine with
  | Except.error err =>
      Except.ok
        ({ error := some (ScanError.msg ("Axe core engine error. " ++ env.serializeError err)),
           scannedUrl := some s.pageUrl },
         logOptional env
           ⟨"error", "Axe core engine error",
             [("browserError", env.serializeError err), ("url", s.pageUrl)]⟩ s)
  | Except.ok axeResults =>
      match s.lastNavigationResponse with
      | none => Except.error (Fault.typeError "lastNavigationResponse is undefined")
      | some resp =>
          if redirectOrMismatch env resp.redirectChainLength s.requestUrl axeResults.url then
            Except.ok
              ({ results := some axeResults,
                 pageTitle := some env.pageTitle,
                 browserSpec := some env.browserVersion,
                 pageResponseCode := some resp.status,
                 userAgent := some env.userAgent,
                 browserResolution := some env.browserResolution,
                 scannedUrl := some axeResults.url },
               logOptional env
                 ⟨"warn", "Scanning performed on redirected page",
                   [("redirectedUrl", axeResults.url)]⟩ s)
          else
            Except.ok
              ({ results := some axeResults,
                 pageTitle := some env.pageTitle,
                 browserSpec := some env.browserVersion,
                 pageResponseCode := some resp.status,
                 userAgent := some env.userAgent,
                 browserResolution := some env.browserResolution }, s)

/-- The error-aggregation tail of `scanPageForCookies` (page.ts lines 173-182):
collect the `error` fields of the consent sub-results; when any exist, log them
all (this logging call dereferences the logger unconditionally) and surface the
first one as the result's single `error`. -/
def finishPrivacyResult (env : Env) (scanResult : PrivacyScanResult) (s2 : PageState)
    (currentUrl : String) (privacyResult : PrivacyResults) :
    Except Fault (PrivacyScanResult × PageState) :=
  let errors := privacyResult.cookieCollectionConsentResults.filterMap ConsentResult.error
  if errors.isEmpty then Except.ok (scanResult, s2)
  else
    match logRequired env
      ⟨"error", "Failed to collect cookies for test scenario.",
        [("url", currentUrl), ("errors", env.stringifyErrors errors)]⟩ s2 with
    | Except.error f => Except.error f
    | Except.ok s3 =>
        Except.ok ({ scanResult with error := some (ScanError.msg (errors.headD "")) }, s3)

/-- The tail of `scanPageForCookies` after the engine returned normally:
result construction from the pre-captured status code, the redirect/mismatch
check against the current page URL, then error aggregation. -/
def assemblePrivacyResult (env : Env) (navigationStatusCode : Nat)
    (privacyResult : PrivacyResults) (s1 : PageState) :
    Except Fault (PrivacyScanResult × PageState) :=
  match s1.lastNavigationResponse with
  | none => Except.error (Fault.typeError "lastNavigationResponse is undefined")
  | some resp1 =>
      if redirectOrMismatch env resp1.redirectChainLength s1.requestUrl s1.pageUrl then
        finishPrivacyResult env
          { results := some { base := privacyResult,
                              httpStatusCode := navigationStatusCode,
                              seedUri := s1.requestUrl },
            pageResponseCode := some navigationStatusCode,
            scannedUrl := some s1.pageUrl }
          (logOptional env
            ⟨"warn", "Scanning performed on redirected page",
              [("redirectedUrl", s1.pageUrl)]⟩ s1)
          s1.pageUrl privacyResult
      else
        finishPrivacyResult env
          { results := some { base := privacyResult,
                              httpStatusCode := navigationStatusCode,
                              seedUri := s1.requestUrl },
            pageResponseCode := some navigationStatusCode }
          s1 s1.pageUrl privacyResult

/-- `scanPageForCookies`: capture the navigation status code before the engine
runs, run the privacy engine (which performs its reloads through the reload
callback and then returns or throws), convert an engine throw into a failure
result, and otherwise assemble the final result. -/
def scanPageForCookies (env : Env) (run : PrivacyEngineRun) (s : PageState) :
    Except Fault (PrivacyScanResult × PageState) :=
  match s.lastNavigationResponse with
  | none => Except.error (Fault.typeError "lastNavigationResponse is undefined")
  | some resp0 =>
      match run.outcome with
      | Except.error err =>
          Except.ok
            ({ error := some (ScanError.msg ("Privacy scan engine error. " ++ env.serializeError err)),
               scannedUrl := some (runReloads env run.reloads s).pageUrl },
             logOptional env
               ⟨"error", "Privacy scan engine error",
                 [("browserError", env.serializeError err),
                  ("url", (runReloads env run.reloads s).pageUrl)]⟩
               (runReloads env run.reloads s))
      | Except.ok privacyResult =>
          assemblePrivacyResult env resp0.status privacyResult (runReloads env run.reloads s)

/-- `scanForA11yIssues`: the accessibility scan routed through the gate. -/
def scanForA11yIssues (env : Env) (engine : Except String AxeResults)
    (s : PageState) : Except Fault (AxeScanResults × PageState) :=
  runIfNavigationSucceeded s
    (fun e code => { error := some e, pageResponseCode := code })
    (scanPageForIssues env engine)

/-- `scanForPrivacy`: the privacy scan routed through the gate. -/
def scanForPrivacy (env : Env) (run : PrivacyEngineRun) (s : PageState) :
    Except Fault (PrivacyScanResult × PageState) :=
  runIfNavigationSucceeded s
    (fun e code => { error := some e, pageResponseCode := code })
    (scanPageForCookies env run)

end Page

/-- A freshly constructed `Page`: every session field unset, nothing created. -/
def initialState : PageState :=
  { requestUrl := none, pageExists := false, pageClosed := false, pageUrl := "",
    lastNavigationResponse := none, lastBrowserError := none,
    driverBrowserOpen := false, log := [] }

/-- A concrete environment with the logger present, used to evaluate the model
on concrete inputs. -/
def sampleEnv : Env :=
  { hasLogger := true, encodeURI := id, serializeError := id,
    serializeBrowserError := BrowserError.message,
    stringifyErrors := String.intercalate ", ",
    pageTitle := "Sample", browserVersion := "Chrome/100",
    userAgent := "agent", browserResolution := "1920x1080" }

/-- The sample environment with the optional logger absent. -/
def noLoggerEnv : Env := { sampleEnv with hasLogger := false }

/-- A session that was created and then navigated successfully: status 200, no
redirects, page at the requested URL. -/
def navigatedState : PageState :=
  { requestUrl := some "http://a.test/x", pageExists := true, pageClosed := false,
    pageUrl := "http://a.test/x",
    lastNavigationResponse := some { status := 200, redirectChainLength := 0 },
    lastBrowserError := none, driverBrowserOpen := true, log := [] }

example : Page.isOpen navigatedState = true := by decide

example : Page.isOpen initialState = false := by decide

/-! ### Structural lemmas about logging, navigation and the gate -/

@[simp] theorem logOptional_requestUrl (env : Env) (e : LogEntry) (s : PageState) :
    (logOptional env e s).requestUrl = s.requestUrl := by
  unfold logOptional; split <;> rfl

@[simp] theorem logOptional_pageExists (env : Env) (e : LogEntry) (s : PageState) :
    (logOptional env e s).pageExists = s.pageExists := by
  unfold logOptional; split <;> rfl

@[simp] theorem logOptional_pageClosed (env : Env) (e : LogEntry) (s : PageState) :
    (logOptional env e s).pageClosed = s.pageClosed := by
  unfold logOptional; split <;> rfl

@[simp] theorem logOptional_pageUrl (env : Env) (e : LogEntry) (s : PageState) :
    (logOptional env e s).pageUrl = s.pageUrl := by
  unfold logOptional; split <;> rfl

@[simp] theorem logOptional_lastNavigationResponse (env : Env) (e : LogEntry) (s : PageState) :
    (logOptional env e s).lastNavigationResponse = s.lastNavigationResponse := by
  unfold logOptional; split <;> rfl

@[simp] theorem logOptional_lastBrowserError (env : Env) (e : LogEntry) (s : PageState) :
    (logOptional env e s).lastBrowserError = s.lastBrowserError := by
  unfold logOptional; split <;> rfl

@[simp] theorem logOptional_driverBrowserOpen (env : Env) (e : LogEntry) (s : PageState) :
    (logOptional env e s).driverBrowserOpen = s.driverBrowserOpen := by
  unfold logOptional; split <;> rfl

theorem logOptional_mem_log (env : Env) (e : LogEntry) (s : PageState)
    (h : env.hasLogger = true) : e ∈ (logOptional env e s).log := by
  simp [logOptional, h]

namespace Page

@[simp] theorem navigateToUrl_requestUrl (env : Env) (url : String) (nav : NavResult)
    (s : PageState) : (navigateToUrl env url nav s).requestUrl = some url := by
  cases nav <;> simp [navigateToUrl]

@[simp] theorem navigateToUrl_pageExists (env : Env) (url : String) (nav : NavResult)
    (s : PageState) : (navigateToUrl env url nav s).pageExists = s.pageExists := by
  cases nav <;> simp [navigateToUrl]

@[simp] theorem navigateToUrl_pageClosed (env : Env) (url : String) (nav : NavResult)
    (s : PageState) : (navigateToUrl env url nav s).pageClosed = s.pageClosed := by
  cases nav <;> simp [navigateToUrl]

@[simp] theorem navigateToUrl_driverBrowserOpen (env : Env) (url : String) (nav : NavResult)
    (s : PageState) : (navigateToUrl env url nav s).driverBrowserOpen = s.driverBrowserOpen := by
  cases nav <;> simp [navigateToUrl]

/-- After any navigation, a recorded browser error and a stored navigation
response are mutually exclusive: failure clears the response, success clears
the error. -/
theorem navigateToUrl_error_or_response (env : Env) (url : String) (nav : NavResult)
    (s : PageState) :
    (navigateToUrl env url nav s).lastBrowserError = none ∨
    (navigateToUrl env url nav s).lastNavigationResponse = none := by
  cases nav <;> simp [navigateToUrl]

@[simp] theorem runReloads_nil (env : Env) (s : PageState) :
    runReloads env [] s = s := rfl

theorem runReloads_cons (env : Env) (nav : NavResult) (rest : List NavResult)
    (s : PageState) :
    runReloads env (nav :: rest) s = runReloads env rest (reloadPage env nav s) := rfl

theorem runReloads_append_single (env : Env) (navs : List NavResult) (nav : NavResult)
    (s : PageState) :
    runReloads env (navs ++ [nav]) s = reloadPage env nav (runReloads env navs s) := by
  induction navs generalizing s with
  | nil => rfl
  | cons hd tl ih => simp only [List.cons_append, runReloads_cons]; exact ih _

@[simp] theorem runReloads_pageExists (env : Env) (reloads : List NavResult) (s : PageState) :
    (runReloads env reloads s).pageExists = s.pageExists := by
  induction reloads generalizing s with
  | nil => rfl
  | cons hd tl ih => simp only [runReloads_cons]; rw [ih]; simp [reloadPage]

@[simp] theorem runReloads_pageClosed (env : Env) (reloads : List NavResult) (s : PageState) :
    (runReloads env reloads s).pageClosed = s.pageClosed := by
  induction reloads generalizing s with
  | nil => rfl
  | cons hd tl ih => simp only [runReloads_cons]; rw [ih]; simp [reloadPage]

/-- Starting from a state where a browser error and a navigation response do
not coexist, any sequence of reloads preserves that exclusivity. -/
theorem runReloads_error_or_response (env : Env) (reloads : List NavResult) (s : PageState)
    (h : s.lastBrowserError = none ∨ s.lastNavigationResponse = none) :
    (runReloads env reloads s).lastBrowserError = none ∨
    (runReloads env reloads s).lastNavigationResponse = none := by
  induction reloads generalizing s with
  | nil => exact h
  | cons hd tl ih =>
      simp only [runReloads_cons]
      exact ih _ (navigateToUrl_error_or_response env _ hd s)

/-- `isOpen` unpacked into its four conjuncts. -/
theorem isOpen_iff (s : PageState) :
    isOpen s = true ↔
      s.pageExists = true ∧ s.pageClosed = false ∧ s.lastBrowserError = none ∧
        s.lastNavigationResponse.isSome = true := by
  simp [isOpen, Bool.and_eq_true, Bool.not_eq_true', Option.isNone_iff_eq_none, and_assoc]

theorem runIfNavigationSucceeded_of_error {α : Type} (s : PageState)
    (mkFailure : ScanError → Option Nat → α)
    (action : PageState → Except Fault (α × PageState)) (e : BrowserError)
    (h : s.lastBrowserError = some e) :
    runIfNavigationSucceeded s mkFailure action =
      Except.ok (mkFailure (ScanError.browser e) e.statusCode, s) := by
  unfold runIfNavigationSucceeded; rw [h]

theorem runIfNavigationSucceeded_of_open {α : Type} (s : PageState)
    (mkFailure : ScanError → Option Nat → α)
    (action : PageState → Except Fault (α × PageState))
    (he : s.lastBrowserError = none) (ho : isOpen s = true) :
    runIfNavigationSucceeded s mkFailure action = action s := by
  unfold runIfNavigationSucceeded; rw [he]; simp [ho]

theorem runIfNavigationSucceeded_not_open {α : Type} (s : PageState)
    (mkFailure : ScanError → Option Nat → α)
    (action : PageState → Except Fault (α × PageState))
    (he : s.lastBrowserError = none) (ho : isOpen s = false) :
    runIfNavigationSucceeded s mkFailure action =
      Except.error
        (Fault.notReady "Page is not ready. Call create() and navigateToUrl() before scan.") := by
  unfold runIfNavigationSucceeded; rw [he]; simp [ho]

end Page

/-! ### Characterization of the privacy result assembly -/

namespace Page

/-- Everything the error-aggregation tail guarantees when it returns: result
fields other than `error` are passed through, the state changes only in its
log, a sub-result error list forces the logger to have been present, and the
`error` field is exactly the first sub-result error (or untouched when there is
none). -/
theorem finishPrivacyResult_ok (env : Env) (scanResult : PrivacyScanResult)
    (s2 : PageState) (url : String) (pr : PrivacyResults) (r : PrivacyScanResult)
    (s3 : PageState)
    (h : finishPrivacyResult env scanResult s2 url pr = Except.ok (r, s3)) :
    r.results = scanResult.results ∧
    r.pageResponseCode = scanResult.pageResponseCode ∧
    r.scannedUrl = scanResult.scannedUrl ∧
    s3.lastBrowserError = s2.lastBrowserError ∧
    s3.lastNavigationResponse = s2.lastNavigationResponse ∧
    s3.pageExists = s2.pageExists ∧
    s3.pageClosed = s2.pageClosed ∧
    s3.pageUrl = s2.pageUrl ∧
    s3.requestUrl = s2.requestUrl ∧
    (pr.cookieCollectionConsentResults.filterMap ConsentResult.error = [] →
      r.error = scanResult.error ∧ s3 = s2) ∧
    (∀ e es, pr.cookieCollectionConsentResults.filterMap ConsentResult.error = e :: es →
      env.hasLogger = true ∧ r.error = some (ScanError.msg e) ∧
      (⟨"error", "Failed to collect cookies for test scenario.",
        [("url", url), ("errors", env.stringifyErrors (e :: es))]⟩ : LogEntry) ∈ s3.log) := by
  by_cases herr :
      (pr.cookieCollectionConsentResults.filterMap ConsentResult.error).isEmpty = true
  · rw [List.isEmpty_iff] at herr
    simp only [finishPrivacyResult, herr, List.isEmpty_nil, if_true] at h
    simp only [Except.ok.injEq, Prod.mk.injEq] at h
    obtain ⟨hr, hs⟩ := h
    subst hr; subst hs
    refine ⟨rfl, rfl, rfl, rfl, rfl, rfl, rfl, rfl, rfl, fun _ => ⟨rfl, rfl⟩, ?_⟩
    intro e es heq
    rw [herr] at heq
    exact absurd heq (by simp)
  · by_cases hlog : env.hasLogger = true
    · simp only [finishPrivacyResult, herr, if_false, logRequired, hlog, if_true,
        Bool.false_eq_true] at h
      simp only [Except.ok.injEq, Prod.mk.injEq] at h
      obtain ⟨hr, hs⟩ := h
      subst hr; subst hs
      refine ⟨rfl, rfl, rfl, rfl, rfl, rfl, rfl, rfl, rfl, ?_, ?_⟩
      · intro heq
        rw [heq] at herr
        exact absurd List.isEmpty_nil herr
      · intro e es heq
        refine ⟨hlog, ?_, ?_⟩
        · rw [heq]; rfl
        · rw [heq]; simp
    · rw [Bool.not_eq_true] at hlog
      simp only [finishPrivacyResult, herr, if_false, logRequired, hlog,
        Bool.false_eq_true] at h
      exact absurd h (by simp)

/-- Everything the post-engine assembly guarantees when it returns a result:
the report carries the captured status code and the request URL at assembly
time, a navigation response was present, and the final state agrees with the
assembly-time state except for the log. -/
theorem assemblePrivacyResult_ok (env : Env) (n : Nat) (pr : PrivacyResults)
    (s1 : PageState) (r : PrivacyScanResult) (s' : PageState)
    (h : Page.assemblePrivacyResult env n pr s1 = Except.ok (r, s')) :
    r.results = some { base := pr, httpStatusCode := n, seedUri := s1.requestUrl } ∧
    r.pageResponseCode = some n ∧
    s1.lastNavigationResponse.isSome = true ∧
    s'.lastBrowserError = s1.lastBrowserError ∧
    s'.lastNavigationResponse = s1.lastNavigationResponse ∧
    s'.pageExists = s1.pageExists ∧
    s'.pageClosed = s1.pageClosed := by
  unfold Page.assemblePrivacyResult at h
  split at h
  next hresp => exact absurd h (by simp)
  next resp1 hresp =>
      by_cases hred :
          redirectOrMismatch env resp1.redirectChainLength s1.requestUrl s1.pageUrl = true
      · rw [if_pos hred] at h
        have hfin := finishPrivacyResult_ok _ _ _ _ _ _ _ h
        refine ⟨hfin.1, by rw [hfin.2.1], by rw [hresp]; rfl, ?_, ?_, ?_, ?_⟩ <;>
          simp [hfin.2.2.2.1, hfin.2.2.2.2.1, hfin.2.2.2.2.2.1, hfin.2.2.2.2.2.2.1]
      · rw [if_neg hred] at h
        have hfin := finishPrivacyResult_ok _ _ _ _ _ _ _ h
        refine ⟨hfin.1, by rw [hfin.2.1], by rw [hresp]; rfl, ?_, ?_, ?_, ?_⟩ <;>
          simp [hfin.2.2.2.1, hfin.2.2.2.2.1, hfin.2.2.2.2.2.1, hfin.2.2.2.2.2.2.1]

end Page

/-! ### Characterization of the two scan actions -/

namespace Page

/-- The accessibility action on an engine throw: always a caught, logged,
converted failure result carrying the serialized engine error and the current
page URL. -/
theorem scanPageForIssues_engine_throw (env : Env) (err : String) (s : PageState) :
    scanPageForIssues env (Except.error err) s =
      Except.ok
        ({ error := some (ScanError.msg ("Axe core engine error. " ++ env.serializeError err)),
           scannedUrl := some s.pageUrl },
         logOptional env
           ⟨"error", "Axe core engine error",
             [("browserError", env.serializeError err), ("url", s.pageUrl)]⟩ s) := rfl

/-- The accessibility action on a normal engine return, as one equation over
the redirect/mismatch condition. -/
theorem scanPageForIssues_engine_ok (env : Env) (ar : AxeResults) (s : PageState)
    (resp : HTTPResponse) (hresp : s.lastNavigationResponse = some resp) :
    scanPageForIssues env (Except.ok ar) s =
      (if redirectOrMismatch env resp.redirectChainLength s.requestUrl ar.url then
        Except.ok
          ({ results := some ar,
             pageTitle := some env.pageTitle,
             browserSpec := some env.browserVersion,
             pageResponseCode := some resp.status,
             userAgent := some env.userAgent,
             browserResolution := some env.browserResolution,
             scannedUrl := some ar.url },
           logOptional env
             ⟨"warn", "Scanning performed on redirected page",
               [("redirectedUrl", ar.url)]⟩ s)
      else
        Except.ok
          ({ results := some ar,
             pageTitle := some env.pageTitle,
             browserSpec := some env.browserVersion,
             pageResponseCode := some resp.status,
             userAgent := some env.userAgent,
             browserResolution := some env.browserResolution }, s)) := by
  simp only [scanPageForIssues, hresp]

/-- The privacy action on an engine throw after the engine's reloads ran:
always a caught, logged, converted failure result carrying the serialized
engine error and the post-reload page URL. -/
theorem scanPageForCookies_engine_throw (env : Env) (run : PrivacyEngineRun)
    (s : PageState) (resp0 : HTTPResponse) (err : String)
    (hresp : s.lastNavigationResponse = some resp0)
    (hout : run.outcome = Except.error err) :
    scanPageForCookies env run s =
      Except.ok
        ({ error := some (ScanError.msg ("Privacy scan engine error. " ++ env.serializeError err)),
           scannedUrl := some (runReloads env run.reloads s).pageUrl },
         logOptional env
           ⟨"error", "Privacy scan engine error",
             [("browserError", env.serializeError err),
              ("url", (runReloads env run.reloads s).pageUrl)]⟩
           (runReloads env run.reloads s)) := by
  simp only [scanPageForCookies, hresp, hout]

/-- The privacy action on a normal engine return delegates to the assembly. -/
theorem scanPageForCookies_engine_ok (env : Env) (run : PrivacyEngineRun)
    (s : PageState) (resp0 : HTTPResponse) (pr : PrivacyResults)
    (hresp : s.lastNavigationResponse = some resp0)
    (hout : run.outcome = Except.ok pr) :
    scanPageForCookies env run s =
      assemblePrivacyResult env resp0.status pr (runReloads env run.reloads s) := by
  simp only [scanPageForCookies, hresp, hout]

/-- Whenever the privacy action returns a result of the success variant, the
report carries the pre-scan status code and the post-reload request URL, the
result echoes the pre-scan status code, the post-reload response existed, and
the final state agrees with the post-reload state except for the log. -/
theorem scanPageForCookies_ok_results (env : Env) (run : PrivacyEngineRun)
    (s s' : PageState) (r : PrivacyScanResult) (rep : PrivacyReport)
    (h : scanPageForCookies env run s = Except.ok (r, s'))
    (hr : r.results = some rep) :
    ∃ resp0 pr, s.lastNavigationResponse = some resp0 ∧ run.outcome = Except.ok pr ∧
      rep.base = pr ∧ rep.httpStatusCode = resp0.status ∧
      rep.seedUri = (runReloads env run.reloads s).requestUrl ∧
      r.pageResponseCode = some resp0.status ∧
      s'.lastBrowserError = (runReloads env run.reloads s).lastBrowserError ∧
      s'.lastNavigationResponse = (runReloads env run.reloads s).lastNavigationResponse ∧
      (runReloads env run.reloads s).lastNavigationResponse.isSome = true ∧
      s'.pageExists = s.pageExists ∧ s'.pageClosed = s.pageClosed := by
  unfold scanPageForCookies at h
  split at h
  next => exact absurd h (by simp)
  next resp0 hresp =>
      split at h
      next err hout =>
          simp only [Except.ok.injEq, Prod.mk.injEq] at h
          rw [← h.1] at hr
          exact absurd hr (by simp)
      next pr hout =>
          have ha := Page.assemblePrivacyResult_ok _ _ _ _ _ _ h
          simp only [ha.1, Option.some.injEq] at hr
          refine ⟨resp0, pr, hresp, hout, ?_, ?_, ?_, ha.2.1, ha.2.2.2.1, ha.2.2.2.2.1,
            ha.2.2.1, ?_, ?_⟩
          · rw [← hr]
          · rw [← hr]
          · rw [← hr]
          · rw [ha.2.2.2.2.2.1, runReloads_pageExists]
          · rw [ha.2.2.2.2.2.2, runReloads_pageClosed]

/-- Whenever the accessibility action returns a result of the success variant,
the session state is unchanged apart from the log, and a navigation response
was present. -/
theorem scanPageForIssues_ok_results (env : Env) (engine : Except String AxeResults)
    (s s' : PageState) (r : AxeScanResults)
    (h : scanPageForIssues env engine s = Except.ok (r, s'))
    (hr : r.results.isSome = true) :
    s'.lastBrowserError = s.lastBrowserError ∧
    s'.lastNavigationResponse = s.lastNavigationResponse ∧
    s'.pageExists = s.pageExists ∧ s'.pageClosed = s.pageClosed ∧
    s.lastNavigationResponse.isSome = true := by
  cases engine with
  | error err =>
      rw [scanPageForIssues_engine_throw] at h
      simp only [Except.ok.injEq, Prod.mk.injEq] at h
      rw [← h.1] at hr
      exact absurd hr (by simp)
  | ok ar =>
      cases hresp : s.lastNavigationResponse with
      | none =>
          have hnone : scanPageForIssues env (Except.ok ar) s =
              Except.error (Fault.typeError "lastNavigationResponse is undefined") := by
            simp only [scanPageForIssues, hresp]
          rw [hnone] at h
          exact absurd h (by simp)
      | some resp =>
          rw [scanPageForIssues_engine_ok env ar s resp hresp] at h
          by_cases hred :
              redirectOrMismatch env resp.redirectChainLength s.requestUrl ar.url = true
          · rw [if_pos hred] at h
            simp only [Except.ok.injEq, Prod.mk.injEq] at h
            obtain ⟨hr1, hs1⟩ := h
            subst hs1
            simp [hresp]
          · rw [if_neg hred] at h
            simp only [Except.ok.injEq, Prod.mk.injEq] at h
            obtain ⟨hr1, hs1⟩ := h
            subst hs1
            simp [hresp]

end Page

/-! ### Claim theorems -/

/-- A session whose navigation failed: the collaborator reported a 404 browser
error, so no navigation response is stored and the session is not open. -/
def erroredState : PageState :=
  { requestUrl := some "http://a.test/x", pageExists := true, pageClosed := false,
    pageUrl := "http://a.test/x", lastNavigationResponse := none,
    lastBrowserError := some { message := "HTTP 404", statusCode := some 404 },
    driverBrowserOpen := true, log := [] }

/-- C2: a recorded browser error short-circuits both scan methods into the
failure variant carrying exactly that error and its status code; the outcome
does not depend on the engine behavior and the state is untouched (the engine
is never invoked), and this holds whether or not the session is open, so the
browser-error check takes priority over the not-ready check. -/
theorem recordedBrowserErrorShortCircuits (env : Env) (engine : Except String AxeResults)
    (run : PrivacyEngineRun) (s : PageState) (e : BrowserError)
    (h : s.lastBrowserError = some e) :
    Page.scanForA11yIssues env engine s =
      Except.ok
        (({ error := some (ScanError.browser e),
            pageResponseCode := e.statusCode } : AxeScanResults), s) ∧
    Page.scanForPrivacy env run s =
      Except.ok
        (({ error := some (ScanError.browser e),
            pageResponseCode := e.statusCode } : PrivacyScanResult), s) := by
  constructor
  · unfold Page.scanForA11yIssues
    rw [Page.runIfNavigationSucceeded_of_error _ _ _ e h]
  · unfold Page.scanForPrivacy
    rw [Page.runIfNavigationSucceeded_of_error _ _ _ e h]

/-- Witness for C2 at a concrete errored (and not-open) session. -/
theorem recordedBrowserErrorShortCircuits_witness :
    Page.scanForA11yIssues sampleEnv (Except.error "boom") erroredState =
      Except.ok
        (({ error := some (ScanError.browser { message := "HTTP 404", statusCode := some 404 }),
            pageResponseCode := some 404 } : AxeScanResults), erroredState) ∧
    Page.scanForPrivacy sampleEnv { reloads := [], outcome := Except.error "boom" } erroredState =
      Except.ok
        (({ error := some (ScanError.browser { message := "HTTP 404", statusCode := some 404 }),
            pageResponseCode := some 404 } : PrivacyScanResult), erroredState) :=
  recordedBrowserErrorShortCircuits sampleEnv (Except.error "boom")
    { reloads := [], outcome := Except.error "boom" } erroredState
    { message := "HTTP 404", statusCode := some 404 } rfl

/-- C8: on a session with no recorded browser error that is not open (never
created, closed, or never navigated), both scan methods raise the not-ready
fault instead of returning a failure result. -/
theorem notReadyFaultWhenUnready (env : Env) (engine : Except String AxeResults)
    (run : PrivacyEngineRun) (s : PageState)
    (he : s.lastBrowserError = none) (ho : Page.isOpen s = false) :
    Page.scanForA11yIssues env engine s =
      Except.error
        (Fault.notReady "Page is not ready. Call create() and navigateToUrl() before scan.") ∧
    Page.scanForPrivacy env run s =
      Except.error
        (Fault.notReady "Page is not ready. Call create() and navigateToUrl() before scan.") := by
  constructor
  · unfold Page.scanForA11yIssues
    rw [Page.runIfNavigationSucceeded_not_open _ _ _ he ho]
  · unfold Page.scanForPrivacy
    rw [Page.runIfNavigationSucceeded_not_open _ _ _ he ho]

/-- Witness for C8 at the freshly constructed session, on which create() was
never called. -/
theorem notReadyFaultWhenUnready_witness :
    Page.scanForA11yIssues sampleEnv (Except.error "boom") initialState =
      Except.error
        (Fault.notReady "Page is not ready. Call create() and navigateToUrl() before scan.") ∧
    Page.scanForPrivacy sampleEnv { reloads := [], outcome := Except.error "boom" } initialState =
      Except.error
        (Fault.notReady "Page is not ready. Call create() and navigateToUrl() before scan.") :=
  notReadyFaultWhenUnready sampleEnv (Except.error "boom")
    { reloads := [], outcome := Except.error "boom" } initialState rfl rfl

/-- C9: close() is idempotent, is a fault-free no-op on a session whose
creation never succeeded (no browser handle held), and releases the driver's
browser handle whenever one was held. -/
theorem closeIdempotentAndSafe (s : PageState) :
    Page.close (Page.close s) = Page.close s ∧
    (s.driverBrowserOpen = false → Page.close s = s) ∧
    (Page.close s).driverBrowserOpen = false := by
  refine ⟨?_, ?_, rfl⟩
  · cases s
    simp [Page.close, Page.webDriverClose]
  · intro h
    cases s
    simp only [Page.close, Page.webDriverClose] at h ⊢
    simp_all

/-- Witness for C9 at the never-created session. -/
theorem closeIdempotentAndSafe_witness :
    Page.close (Page.close initialState) = Page.close initialState ∧
    Page.close initialState = initialState ∧
    (Page.close initialState).driverBrowserOpen = false :=
  ⟨(closeIdempotentAndSafe initialState).1,
   (closeIdempotentAndSafe initialState).2.1 rfl,
   (closeIdempotentAndSafe initialState).2.2⟩

/-- Privacy engine run for the C1 witness: the first reload's navigation fails
and records a browser error, the second reload succeeds, then the engine
returns normally. -/
def c1Run : PrivacyEngineRun :=
  { reloads := [NavResult.failure { message := "net::ERR_CONNECTION_RESET", statusCode := some 404 },
                NavResult.success { status := 200, redirectChainLength := 0 } "http://a.test/x"],
    outcome := Except.ok { cookieCollectionConsentResults := [], otherData := "cookies" } }

/-- The final state of the C1 witness scan: the failed reload's navigation
error was logged, but the successful second reload cleared the error and
restored a response. -/
def c1State : PageState :=
  { navigatedState with
      log := [⟨"error", "Page navigation error",
        [("browserError", "net::ERR_CONNECTION_RESET")]⟩] }

/-- The result of the C1 witness scan. -/
def c1Result : PrivacyScanResult :=
  { results := some { base := { cookieCollectionConsentResults := [], otherData := "cookies" },
                      httpStatusCode := 200, seedUri := some "http://a.test/x" },
    pageResponseCode := some 200 }

/-- C1: whenever either scan method returns a success-variant result (one
carrying `results`), the session state at that moment has no recorded browser
error, a stored navigation response, and an open page handle — including
privacy scans during which an engine-triggered reload recorded a browser error
along the way. -/
theorem successResultImpliesSessionOpen (env : Env) (run : PrivacyEngineRun)
    (engine : Except String AxeResults) (s sp sa : PageState)
    (rp : PrivacyScanResult) (ra : AxeScanResults) :
    (Page.scanForPrivacy env run s = Except.ok (rp, sp) → rp.results.isSome = true →
      sp.lastBrowserError = none ∧ sp.lastNavigationResponse.isSome = true ∧
      sp.pageExists = true ∧ sp.pageClosed = false) ∧
    (Page.scanForA11yIssues env engine s = Except.ok (ra, sa) → ra.results.isSome = true →
      sa.lastBrowserError = none ∧ sa.lastNavigationResponse.isSome = true ∧
      sa.pageExists = true ∧ sa.pageClosed = false) := by
  constructor
  · intro h hr
    unfold Page.scanForPrivacy at h
    cases he : s.lastBrowserError with
    | some e =>
        rw [Page.runIfNavigationSucceeded_of_error _ _ _ e he] at h
        simp only [Except.ok.injEq, Prod.mk.injEq] at h
        rw [← h.1] at hr
        exact absurd hr (by simp)
    | none =>
        by_cases ho : Page.isOpen s = true
        · rw [Page.runIfNavigationSucceeded_of_open _ _ _ he ho] at h
          obtain ⟨hpe, hpc, _, _⟩ := (Page.isOpen_iff s).mp ho
          obtain ⟨rep, hrep⟩ := Option.isSome_iff_exists.mp hr
          obtain ⟨resp0, pr, hresp, hout, _, _, _, _, herr2, hnav2, hsome, hex, hcl⟩ :=
            Page.scanPageForCookies_ok_results env run s sp rp rep h hrep
          refine ⟨?_, ?_, ?_, ?_⟩
          · rcases Page.runReloads_error_or_response env run.reloads s (Or.inl he) with hh | hh
            · rw [herr2, hh]
            · rw [hh] at hsome; exact absurd hsome (by simp)
          · rw [hnav2]; exact hsome
          · rw [hex, hpe]
          · rw [hcl, hpc]
        · rw [Bool.not_eq_true] at ho
          rw [Page.runIfNavigationSucceeded_not_open _ _ _ he ho] at h
          exact absurd h (by simp)
  · intro h hr
    unfold Page.scanForA11yIssues at h
    cases he : s.lastBrowserError with
    | some e =>
        rw [Page.runIfNavigationSucceeded_of_error _ _ _ e he] at h
        simp only [Except.ok.injEq, Prod.mk.injEq] at h
        rw [← h.1] at hr
        exact absurd hr (by simp)
    | none =>
        by_cases ho : Page.isOpen s = true
        · rw [Page.runIfNavigationSucceeded_of_open _ _ _ he ho] at h
          obtain ⟨hpe, hpc, _, hnav⟩ := (Page.isOpen_iff s).mp ho
          obtain ⟨h1, h2, h3, h4, _⟩ :=
            Page.scanPageForIssues_ok_results env engine s sa ra h hr
          exact ⟨by rw [h1, he], by rw [h2]; exact hnav, by rw [h3, hpe], by rw [h4, hpc]⟩
        · rw [Bool.not_eq_true] at ho
          rw [Page.runIfNavigationSucceeded_not_open _ _ _ he ho] at h
          exact absurd h (by simp)

/-- Witness for C1: the privacy scan whose first reload recorded a browser
error still ends with an open, error-free session when it produces its
success-variant result. -/
theorem successResultImpliesSessionOpen_witness :
    c1State.lastBrowserError = none ∧ c1State.lastNavigationResponse.isSome = true ∧
    c1State.pageExists = true ∧ c1State.pageClosed = false :=
  (successResultImpliesSessionOpen sampleEnv c1Run (Except.error "boom") navigatedState
      c1State navigatedState c1Result {}).1 rfl (by decide)

/-- Privacy engine run whose single consent sub-result carries an error. -/
def c3Run : PrivacyEngineRun :=
  { reloads := [],
    outcome := Except.ok
      { cookieCollectionConsentResults := [{ error := some "E1", payload := "banner" }],
        otherData := "cookies" } }

/-- C3 (the code evaluated at the failing input): with the optional logger
absent and the privacy engine reporting a sub-result error, the scan raises a
TypeError from the unguarded logger dereference instead of returning its
result — while the identical scan with the logger present completes normally,
showing the fault comes only from the missing logger. -/
theorem privacyScanFaultsWithoutLogger :
    Page.scanForPrivacy noLoggerEnv c3Run navigatedState =
      Except.error (Fault.typeError "Cannot read properties of undefined (reading logError)") ∧
    Page.scanForPrivacy sampleEnv c3Run navigatedState =
      Except.ok
        ({ results := some { base := { cookieCollectionConsentResults :=
                                         [{ error := some "E1", payload := "banner" }],
                                       otherData := "cookies" },
                             httpStatusCode := 200, seedUri := some "http://a.test/x" },
           error := some (ScanError.msg "E1"),
           pageResponseCode := some 200 },
         { navigatedState with
             log := [⟨"error", "Failed to collect cookies for test scenario.",
               [("url", "http://a.test/x"), ("errors", "E1")]⟩] }) :=
  ⟨rfl, rfl⟩

/-- Privacy engine run for the C4 witness: one mid-scan reload succeeds with
status 503, different from the original 200. -/
def c4Run : PrivacyEngineRun :=
  { reloads := [NavResult.success { status := 503, redirectChainLength := 0 } "http://a.test/x"],
    outcome := Except.ok { cookieCollectionConsentResults := [], otherData := "cookies" } }

/-- The report produced by the C4 witness scan: it echoes the original 200. -/
def c4Report : PrivacyReport :=
  { base := { cookieCollectionConsentResults := [], otherData := "cookies" },
    httpStatusCode := 200, seedUri := some "http://a.test/x" }

/-- The result of the C4 witness scan. -/
def c4Result : PrivacyScanResult :=
  { results := some c4Report, pageResponseCode := some 200 }

/-- The final state of the C4 witness scan: the stored response now has the
post-reload status 503. -/
def c4State : PageState :=
  { navigatedState with
      lastNavigationResponse := some { status := 503, redirectChainLength := 0 } }

/-- C4: a success-variant privacy result's httpStatusCode and pageResponseCode
both equal the status of the navigation response as it stood when the scan
started, captured before the engine ran — not the status of any response a
mid-scan reload stored afterwards. -/
theorem privacyStatusCapturedBeforeEngine (env : Env) (run : PrivacyEngineRun)
    (s s' : PageState) (r : PrivacyScanResult) (rep : PrivacyReport) (resp : HTTPResponse)
    (hresp : s.lastNavigationResponse = some resp)
    (h : Page.scanForPrivacy env run s = Except.ok (r, s'))
    (hr : r.results = some rep) :
    rep.httpStatusCode = resp.status ∧ r.pageResponseCode = some resp.status := by
  unfold Page.scanForPrivacy at h
  cases he : s.lastBrowserError with
  | some e =>
      rw [Page.runIfNavigationSucceeded_of_error _ _ _ e he] at h
      simp only [Except.ok.injEq, Prod.mk.injEq] at h
      rw [← h.1] at hr
      exact absurd hr (by simp)
  | none =>
      by_cases ho : Page.isOpen s = true
      · rw [Page.runIfNavigationSucceeded_of_open _ _ _ he ho] at h
        obtain ⟨resp0, pr, hresp0, hout, hbase, hcode, hseed, hprc, _⟩ :=
          Page.scanPageForCookies_ok_results env run s s' r rep h hr
        rw [hresp] at hresp0
        obtain rfl := (Option.some.injEq _ _).mp hresp0
        exact ⟨hcode, hprc⟩
      · rw [Bool.not_eq_true] at ho
        rw [Page.runIfNavigationSucceeded_not_open _ _ _ he ho] at h
        exact absurd h (by simp)

/-- Witness for C4: after a reload that succeeded with status 503, the result
still reports the original status 200 in both fields. -/
theorem privacyStatusCapturedBeforeEngine_witness :
    c4Report.httpStatusCode = 200 ∧ c4Result.pageResponseCode = some 200 :=
  privacyStatusCapturedBeforeEngine sampleEnv c4Run navigatedState c4State c4Result
    c4Report { status := 200, redirectChainLength := 0 } rfl rfl rfl

/-- C5: when the gate passes and the privacy engine returns normally, any
sub-result errors are aggregated by surfacing exactly the first one (in list
order) as the overall result's single error while the full list is logged in
one record; with no sub-result errors the result's error field stays unset. -/
theorem privacyFirstErrorSurfaced (env : Env) (run : PrivacyEngineRun)
    (s s' : PageState) (r : PrivacyScanResult) (pr : PrivacyResults)
    (he : s.lastBrowserError = none) (ho : Page.isOpen s = true)
    (hout : run.outcome = Except.ok pr)
    (h : Page.scanForPrivacy env run s = Except.ok (r, s')) :
    (∀ e es, pr.cookieCollectionConsentResults.filterMap ConsentResult.error = e :: es →
      r.error = some (ScanError.msg e) ∧
      (⟨"error", "Failed to collect cookies for test scenario.",
        [("url", (Page.runReloads env run.reloads s).pageUrl),
         ("errors", env.stringifyErrors (e :: es))]⟩ : LogEntry) ∈ s'.log) ∧
    (pr.cookieCollectionConsentResults.filterMap ConsentResult.error = [] →
      r.error = none) := by
  unfold Page.scanForPrivacy at h
  rw [Page.runIfNavigationSucceeded_of_open _ _ _ he ho] at h
  obtain ⟨_, _, _, hnav⟩ := (Page.isOpen_iff s).mp ho
  obtain ⟨resp0, hresp⟩ := Option.isSome_iff_exists.mp hnav
  rw [Page.scanPageForCookies_engine_ok env run s resp0 pr hresp hout] at h
  unfold Page.assemblePrivacyResult at h
  split at h
  next => exact absurd h (by simp)
  next resp1 hresp1 =>
      by_cases hred : redirectOrMismatch env resp1.redirectChainLength
          (Page.runReloads env run.reloads s).requestUrl
          (Page.runReloads env run.reloads s).pageUrl = true
      · rw [if_pos hred] at h
        obtain ⟨hres, hcode, hsurl, hber, hnavr, hpe, hpc, hpu, hru, hnil, hcons⟩ :=
          Page.finishPrivacyResult_ok _ _ _ _ _ _ _ h
        refine ⟨?_, ?_⟩
        · intro e es heq
          obtain ⟨_, herr2, hmem⟩ := hcons e es heq
          exact ⟨herr2, hmem⟩
        · intro heq
          rw [(hnil heq).1]
      · rw [if_neg hred] at h
        obtain ⟨hres, hcode, hsurl, hber, hnavr, hpe, hpc, hpu, hru, hnil, hcons⟩ :=
          Page.finishPrivacyResult_ok _ _ _ _ _ _ _ h
        refine ⟨?_, ?_⟩
        · intro e es heq
          obtain ⟨_, herr2, hmem⟩ := hcons e es heq
          exact ⟨herr2, hmem⟩
        · intro heq
          rw [(hnil heq).1]

/-- The privacy engine output for the C5 witness: two sub-results carrying
errors E1 and E2. -/
def c5Privacy : PrivacyResults :=
  { cookieCollectionConsentResults :=
      [{ error := some "E1", payload := "p1" }, { error := some "E2", payload := "p2" }],
    otherData := "cookies" }

/-- Privacy engine run for the C5 witness. -/
def c5Run : PrivacyEngineRun := { reloads := [], outcome := Except.ok c5Privacy }

/-- The single aggregation log record of the C5 witness, carrying both errors. -/
def c5AggEntry : LogEntry :=
  ⟨"error", "Failed to collect cookies for test scenario.",
    [("url", "http://a.test/x"), ("errors", "E1, E2")]⟩

/-- The final state of the C5 witness scan. -/
def c5State : PageState := { navigatedState with log := [c5AggEntry] }

/-- The result of the C5 witness scan: only E1 is surfaced. -/
def c5Result : PrivacyScanResult :=
  { results := some { base := c5Privacy, httpStatusCode := 200,
                      seedUri := some "http://a.test/x" },
    error := some (ScanError.msg "E1"),
    pageResponseCode := some 200 }

/-- Witness for C5: with sub-result errors E1 then E2, the surfaced error is
E1 and the logged record carries both. -/
theorem privacyFirstErrorSurfaced_witness :
    c5Result.error = some (ScanError.msg "E1") ∧ c5AggEntry ∈ c5State.log :=
  (privacyFirstErrorSurfaced sampleEnv c5Run navigatedState c5State c5Result c5Privacy
    rfl rfl rfl rfl).1 "E1" ["E2"] rfl

/-- The redirect/mismatch condition, as a proposition, for a defined request
URL. -/
theorem redirectOrMismatch_true_iff (env : Env) (len : Nat) (u obs : String) :
    redirectOrMismatch env len (some u) obs = true ↔
      (0 < len ∨ env.encodeURI u ≠ obs) := by
  simp [redirectOrMismatch]

/-- C6 counterexample: an accessibility scan whose engine throws on a session
with zero redirects and an exactly matching encoded URL still returns a result
carrying `scannedUrl` — so `scannedUrl` presence does not coincide with URL
divergence over all produced scan results. -/
theorem scannedUrlWithoutDivergence :
    Page.scanForA11yIssues sampleEnv (Except.error "axe crashed") navigatedState =
      Except.ok
        (({ error := some (ScanError.msg "Axe core engine error. axe crashed"),
            scannedUrl := some "http://a.test/x" } : AxeScanResults),
         { navigatedState with log := [⟨"error", "Axe core engine error",
             [("browserError", "axe crashed"), ("url", "http://a.test/x")]⟩] }) ∧
    navigatedState.requestUrl = some "http://a.test/x" ∧
    sampleEnv.encodeURI "http://a.test/x" = "http://a.test/x" ∧
    navigatedState.lastNavigationResponse.map HTTPResponse.redirectChainLength = some 0 :=
  ⟨rfl, rfl, rfl, rfl⟩

/-- C6 amended: for scan results whose engine run completed normally (the
success variant), `scannedUrl` is present exactly when the redirect chain is
non-empty or the encoded requested URL differs from the observed URL — the
engine-reported URL for the accessibility scan, the current page URL after any
reloads for the privacy scan — and absent when the chain is empty and the
encoded URLs agree; results of engine faults always carry `scannedUrl`. -/
theorem scannedUrlIffDivergenceAmended (env : Env) (ar : AxeResults)
    (run : PrivacyEngineRun) (pr : PrivacyResults) (s sa sp : PageState)
    (ra : AxeScanResults) (rp : PrivacyScanResult)
    (resp resp1 : HTTPResponse) (u u1 : String) :
    (s.lastBrowserError = none → s.lastNavigationResponse = some resp →
      s.requestUrl = some u →
      Page.scanForA11yIssues env (Except.ok ar) s = Except.ok (ra, sa) →
      (ra.scannedUrl.isSome = true ↔
        (0 < resp.redirectChainLength ∨ env.encodeURI u ≠ ar.url)) ∧
      (resp.redirectChainLength = 0 → env.encodeURI u = ar.url →
        ra.scannedUrl = none)) ∧
    (s.lastBrowserError = none → run.outcome = Except.ok pr →
      (Page.runReloads env run.reloads s).lastNavigationResponse = some resp1 →
      (Page.runReloads env run.reloads s).requestUrl = some u1 →
      Page.scanForPrivacy env run s = Except.ok (rp, sp) →
      (rp.scannedUrl.isSome = true ↔
        (0 < resp1.redirectChainLength ∨
          env.encodeURI u1 ≠ (Page.runReloads env run.reloads s).pageUrl)) ∧
      (resp1.redirectChainLength = 0 →
        env.encodeURI u1 = (Page.runReloads env run.reloads s).pageUrl →
        rp.scannedUrl = none)) := by
  constructor
  · intro he hresp hu h
    unfold Page.scanForA11yIssues at h
    by_cases ho : Page.isOpen s = true
    · rw [Page.runIfNavigationSucceeded_of_open _ _ _ he ho] at h
      rw [Page.scanPageForIssues_engine_ok env ar s resp hresp] at h
      rw [hu] at h
      by_cases hred : redirectOrMismatch env resp.redirectChainLength (some u) ar.url = true
      · rw [if_pos hred] at h
        simp only [Except.ok.injEq, Prod.mk.injEq] at h
        rw [← h.1]
        have hdiv := (redirectOrMismatch_true_iff env _ u ar.url).mp hred
        refine ⟨⟨fun _ => hdiv, fun _ => rfl⟩, ?_⟩
        intro hlen hurl
        rcases hdiv with hd | hd
        · rw [hlen] at hd; exact absurd hd (by simp)
        · exact absurd hurl hd
      · rw [if_neg hred] at h
        simp only [Except.ok.injEq, Prod.mk.injEq] at h
        rw [← h.1]
        have hdiv := fun hp => hred ((redirectOrMismatch_true_iff env _ u ar.url).mpr hp)
        exact ⟨⟨fun hx => absurd hx (by simp), fun hp => absurd hp hdiv⟩, fun _ _ => rfl⟩
    · rw [Bool.not_eq_true] at ho
      rw [Page.runIfNavigationSucceeded_not_open _ _ _ he ho] at h
      exact absurd h (by simp)
  · intro he hout hresp1 hu1 h
    unfold Page.scanForPrivacy at h
    by_cases ho : Page.isOpen s = true
    · rw [Page.runIfNavigationSucceeded_of_open _ _ _ he ho] at h
      obtain ⟨_, _, _, hnav⟩ := (Page.isOpen_iff s).mp ho
      obtain ⟨resp0, hresp0⟩ := Option.isSome_iff_exists.mp hnav
      rw [Page.scanPageForCookies_engine_ok env run s resp0 pr hresp0 hout] at h
      unfold Page.assemblePrivacyResult at h
      split at h
      next hnone => rw [hnone] at hresp1; exact absurd hresp1 (by simp)
      next respX hrespX =>
          rw [hrespX] at hresp1
          obtain rfl := (Option.some.injEq _ _).mp hresp1.symm
          rw [hu1] at h
          by_cases hred : redirectOrMismatch env resp1.redirectChainLength (some u1)
              (Page.runReloads env run.reloads s).pageUrl = true
          · rw [if_pos hred] at h
            obtain ⟨_, _, hsurl, _⟩ := Page.finishPrivacyResult_ok _ _ _ _ _ _ _ h
            rw [hsurl]
            have hdiv := (redirectOrMismatch_true_iff env _ u1 _).mp hred
            refine ⟨⟨fun _ => hdiv, fun _ => rfl⟩, ?_⟩
            intro hlen hurl
            rcases hdiv with hd | hd
            · rw [hlen] at hd; exact absurd hd (by simp)
            · exact absurd hurl hd
          · rw [if_neg hred] at h
            obtain ⟨_, _, hsurl, _⟩ := Page.finishPrivacyResult_ok _ _ _ _ _ _ _ h
            rw [hsurl]
            have hdiv := fun hp => hred ((redirectOrMismatch_true_iff env _ u1 _).mpr hp)
            exact ⟨⟨fun hx => absurd hx (by simp), fun hp => absurd hp hdiv⟩, fun _ _ => rfl⟩
    · rw [Bool.not_eq_true] at ho
      rw [Page.runIfNavigationSucceeded_not_open _ _ _ he ho] at h
      exact absurd h (by simp)

/-- Engine output for the C6 amended witness: axe observed a different URL. -/
def c6Axe : AxeResults := { url := "http://b.test/y", payload := "axe" }

/-- The result of the C6 amended witness scan: the URL mismatch makes
`scannedUrl` present. -/
def c6Result : AxeScanResults :=
  { results := some c6Axe, pageTitle := some "Sample", browserSpec := some "Chrome/100",
    pageResponseCode := some 200, userAgent := some "agent",
    browserResolution := some "1920x1080", scannedUrl := some "http://b.test/y" }

/-- The final state of the C6 amended witness scan, carrying the redirect
warning. -/
def c6State : PageState :=
  { navigatedState with log := [⟨"warn", "Scanning performed on redirected page",
      [("redirectedUrl", "http://b.test/y")]⟩] }

/-- Witness for the amended C6 at a concrete mismatching scan. -/
theorem scannedUrlIffDivergenceAmended_witness :
    c6Result.scannedUrl.isSome = true ↔
      (0 < (0 : Nat) ∨ sampleEnv.encodeURI "http://a.test/x" ≠ "http://b.test/y") :=
  ((scannedUrlIffDivergenceAmended sampleEnv c6Axe
      { reloads := [], outcome := Except.error "unused" }
      { cookieCollectionConsentResults := [], otherData := "d" }
      navigatedState c6State navigatedState c6Result {}
      { status := 200, redirectChainLength := 0 }
      { status := 200, redirectChainLength := 0 }
      "http://a.test/x" "u1").1 rfl rfl rfl rfl).1

/-- C7: when the gate passes and an engine throws, either scan catches the
fault at the call boundary, logs it, and returns a failure-variant result whose
error names the engine with the serialized error and whose scannedUrl is the
current page URL (post-reload for the privacy scan); the fault is never
propagated to the caller. -/
theorem engineFaultConverted (env : Env) (s : PageState) (err : String)
    (run : PrivacyEngineRun)
    (hlog : env.hasLogger = true) (he : s.lastBrowserError = none)
    (ho : Page.isOpen s = true) (hout : run.outcome = Except.error err) :
    Page.scanForA11yIssues env (Except.error err) s =
      Except.ok
        (({ error := some (ScanError.msg ("Axe core engine error. " ++ env.serializeError err)),
            scannedUrl := some s.pageUrl } : AxeScanResults),
         logOptional env ⟨"error", "Axe core engine error",
           [("browserError", env.serializeError err), ("url", s.pageUrl)]⟩ s) ∧
    (⟨"error", "Axe core engine error",
        [("browserError", env.serializeError err), ("url", s.pageUrl)]⟩ : LogEntry) ∈
      (logOptional env ⟨"error", "Axe core engine error",
        [("browserError", env.serializeError err), ("url", s.pageUrl)]⟩ s).log ∧
    Page.scanForPrivacy env run s =
      Except.ok
        (({ error := some (ScanError.msg ("Privacy scan engine error. " ++ env.serializeError err)),
            scannedUrl := some (Page.runReloads env run.reloads s).pageUrl } : PrivacyScanResult),
         logOptional env ⟨"error", "Privacy scan engine error",
           [("browserError", env.serializeError err),
            ("url", (Page.runReloads env run.reloads s).pageUrl)]⟩
           (Page.runReloads env run.reloads s)) ∧
    (⟨"error", "Privacy scan engine error",
        [("browserError", env.serializeError err),
         ("url", (Page.runReloads env run.reloads s).pageUrl)]⟩ : LogEntry) ∈
      (logOptional env ⟨"error", "Privacy scan engine error",
        [("browserError", env.serializeError err),
         ("url", (Page.runReloads env run.reloads s).pageUrl)]⟩
        (Page.runReloads env run.reloads s)).log := by
  obtain ⟨_, _, _, hnav⟩ := (Page.isOpen_iff s).mp ho
  obtain ⟨resp0, hresp⟩ := Option.isSome_iff_exists.mp hnav
  refine ⟨?_, logOptional_mem_log env _ _ hlog, ?_, logOptional_mem_log env _ _ hlog⟩
  · unfold Page.scanForA11yIssues
    rw [Page.runIfNavigationSucceeded_of_open _ _ _ he ho,
      Page.scanPageForIssues_engine_throw]
  · unfold Page.scanForPrivacy
    rw [Page.runIfNavigationSucceeded_of_open _ _ _ he ho,
      Page.scanPageForCookies_engine_throw env run s resp0 err hresp hout]

/-- Witness for C7 at a concrete engine fault on a navigated session. -/
theorem engineFaultConverted_witness :
    Page.scanForA11yIssues sampleEnv (Except.error "boom") navigatedState =
      Except.ok
        (({ error := some (ScanError.msg "Axe core engine error. boom"),
            scannedUrl := some "http://a.test/x" } : AxeScanResults),
         { navigatedState with log := [⟨"error", "Axe core engine error",
             [("browserError", "boom"), ("url", "http://a.test/x")]⟩] }) ∧
    Page.scanForPrivacy sampleEnv { reloads := [], outcome := Except.error "boom" }
        navigatedState =
      Except.ok
        (({ error := some (ScanError.msg "Privacy scan engine error. boom"),
            scannedUrl := some "http://a.test/x" } : PrivacyScanResult),
         { navigatedState with log := [⟨"error", "Privacy scan engine error",
             [("browserError", "boom"), ("url", "http://a.test/x")]⟩] }) :=
  ⟨(engineFaultConverted sampleEnv navigatedState "boom"
      { reloads := [], outcome := Except.error "boom" } rfl rfl rfl rfl).1,
   (engineFaultConverted sampleEnv navigatedState "boom"
      { reloads := [], outcome := Except.error "boom" } rfl rfl rfl rfl).2.2.1⟩

/-- A session whose original navigation was redirected: the page sits at the
final URL while requestUrl still holds the originally requested one. -/
def redirectedState : PageState :=
  { requestUrl := some "http://a.test/start", pageExists := true, pageClosed := false,
    pageUrl := "http://a.test/final",
    lastNavigationResponse := some { status := 200, redirectChainLength := 1 },
    lastBrowserError := none, driverBrowserOpen := true, log := [] }

/-- Privacy engine run for the C10 witness: one reload of the current page. -/
def c10Run : PrivacyEngineRun :=
  { reloads := [NavResult.success { status := 200, redirectChainLength := 0 }
      "http://a.test/final"],
    outcome := Except.ok { cookieCollectionConsentResults := [], otherData := "cookies" } }

/-- The report of the C10 witness scan: seedUri holds the reload-time URL. -/
def c10Report : PrivacyReport :=
  { base := { cookieCollectionConsentResults := [], otherData := "cookies" },
    httpStatusCode := 200, seedUri := some "http://a.test/final" }

/-- The result of the C10 witness scan. -/
def c10Result : PrivacyScanResult :=
  { results := some c10Report, pageResponseCode := some 200 }

/-- The final state of the C10 witness scan: the reload overwrote requestUrl
and the stored response. -/
def c10State : PageState :=
  { redirectedState with
      requestUrl := some "http://a.test/final",
      lastNavigationResponse := some { status := 200, redirectChainLength := 0 } }

/-- C10: a success-variant privacy result's seedUri is the requestUrl as it
stands after the engine's reloads — the page URL at the time of the last
reload when at least one happened (each reload routes through navigateToUrl,
which overwrites requestUrl with the page's current URL), and the originally
requested URL when the callback was never invoked. -/
theorem seedUriReflectsLastReload (env : Env) (run : PrivacyEngineRun)
    (s s' : PageState) (r : PrivacyScanResult) (rep : PrivacyReport)
    (h : Page.scanForPrivacy env run s = Except.ok (r, s'))
    (hr : r.results = some rep) :
    rep.seedUri = (Page.runReloads env run.reloads s).requestUrl ∧
    (run.reloads = [] → rep.seedUri = s.requestUrl) ∧
    (∀ navs nav, run.reloads = navs ++ [nav] →
      rep.seedUri = some ((Page.runReloads env navs s).pageUrl)) := by
  unfold Page.scanForPrivacy at h
  cases he : s.lastBrowserError with
  | some e =>
      rw [Page.runIfNavigationSucceeded_of_error _ _ _ e he] at h
      simp only [Except.ok.injEq, Prod.mk.injEq] at h
      rw [← h.1] at hr
      exact absurd hr (by simp)
  | none =>
      by_cases ho : Page.isOpen s = true
      · rw [Page.runIfNavigationSucceeded_of_open _ _ _ he ho] at h
        obtain ⟨resp0, pr, hresp0, hout, hbase, hcode, hseed, _⟩ :=
          Page.scanPageForCookies_ok_results env run s s' r rep h hr
        refine ⟨hseed, ?_, ?_⟩
        · intro hnil
          rw [hnil, Page.runReloads_nil] at hseed
          exact hseed
        · intro navs nav heq
          rw [heq, Page.runReloads_append_single] at hseed
          rw [hseed]
          simp [Page.reloadPage]
      · rw [Bool.not_eq_true] at ho
        rw [Page.runIfNavigationSucceeded_not_open _ _ _ he ho] at h
        exact absurd h (by simp)

/-- Witness for C10: after one reload at the redirected page, seedUri is the
reload-time page URL, not the originally requested URL. -/
theorem seedUriReflectsLastReload_witness :
    c10Report.seedUri = some "http://a.test/final" ∧
    redirectedState.requestUrl = some "http://a.test/start" :=
  ⟨(seedUriReflectsLastReload sampleEnv c10Run redirectedState c10State c10Result c10Report
      rfl rfl).2.2 []
      (NavResult.success { status := 200, redirectChainLength := 0 } "http://a.test/final")
      rfl,
   rfl⟩
